import Mathlib

/-!
Verification of the customer-analytics service core against its source.

The embedding models, in exact rational arithmetic, the computations of
`backend/routers/sales.py`, `backend/routers/customers.py`,
`backend/routers/forecast.py` and `scripts/reload_data.py`:

* SQL aggregates (`SUM`, `AVG`, `MAX`, `MIN`, `COUNT(DISTINCT ..)`) become
  list folds; a NULL-producing aggregate becomes `Option`.
* Python `round(x, n)` (banker's rounding) becomes `pyRound`.
* A Python `try/except` handler becomes a total function on a `DBOutcome`;
  an endpoint with no handler maps a failed query to `Except.error`,
  modelling the uncaught exception crossing the boundary.
* `datetime.date` values are day numbers (`Int`); `strftime("%Y-%m-%d")` /
  `TO_CHAR(.., 'YYYY-MM-DD')` become `dateStr` via the standard
  civil-from-days conversion, so date arithmetic and formatting are real.
-/

namespace Analytics

/-- Floor of a rational, computed on its normalised representation. -/
def ratFloor (q : ℚ) : ℤ := q.num.fdiv q.den

theorem ratFloor_eq_floor (q : ℚ) : ratFloor q = ⌊q⌋ := by
  rw [Rat.floor_def, ratFloor, Int.fdiv_eq_ediv _ (by positivity)]

/-- Banker's rounding of a rational to an integer, as Python's `round`:
round half to even. -/
def roundHalfEven (q : ℚ) : ℤ :=
  let f := ratFloor q
  if q - f < 1/2 then f
  else if q - f > 1/2 then f + 1
  else if f % 2 = 0 then f else f + 1

/-- Python `round(q, n)`: banker's rounding to `n` decimal digits. -/
def pyRound (q : ℚ) (n : ℕ) : ℚ :=
  (roundHalfEven (q * 10 ^ n) : ℚ) / 10 ^ n

/-- Python coercion pattern `float(x) if x else 0` applied to a nullable
numeric: `None` and `0.0` are falsy and give `0`. -/
def pyTruthyFloat (o : Option ℚ) : ℚ :=
  match o with
  | none => 0
  | some v => if v = 0 then 0 else v

/-- SQL `AVG` over a column: `NULL` on an empty set, else sum / count. -/
def sqlAvg (xs : List ℚ) : Option ℚ :=
  if xs.isEmpty then none else some (xs.sum / xs.length)

/-- SQL `MAX` over a column: `NULL` on an empty set. -/
def sqlMax : List ℚ → Option ℚ
  | [] => none
  | x :: xs =>
    some (match sqlMax xs with
          | none => x
          | some m => max x m)

/-- SQL `MIN` over a column: `NULL` on an empty set. -/
def sqlMin : List ℚ → Option ℚ
  | [] => none
  | x :: xs =>
    some (match sqlMin xs with
          | none => x
          | some m => min x m)

/-- Boolean check that one character list starts with another. -/
def charsStartWith : List Char → List Char → Bool
  | [], _ => true
  | _ :: _, [] => false
  | a :: as, b :: bs => a == b && charsStartWith as bs

/-- Boolean substring-occurrence check on character lists. -/
def charsContain (pat : List Char) : List Char → Bool
  | [] => charsStartWith pat []
  | c :: rest => charsStartWith pat (c :: rest) || charsContain pat rest

/-- Whether `pat` occurs as a contiguous substring of `s` (Python `in`). -/
def strContains (s pat : String) : Bool :=
  charsContain pat.data s.data

/-- Civil date from a day number (days since 1970-01-01), the standard
Gregorian conversion used by `datetime.date`. Returns (year, month, day). -/
def civilFromDays (z : ℤ) : ℤ × ℕ × ℕ :=
  let z' := z + 719468
  let era := z'.fdiv 146097
  let doe := (z' - era * 146097).toNat
  let yoe := (doe - doe / 1460 + doe / 36524 - doe / 146096) / 365
  let y := (yoe : ℤ) + era * 400
  let doy := doe - (365 * yoe + yoe / 4 - yoe / 100)
  let mp := (5 * doy + 2) / 153
  let d := doy - (153 * mp + 2) / 5 + 1
  let m := if mp < 10 then mp + 3 else mp - 9
  (if m ≤ 2 then y + 1 else y, m, d)

/-- Day number (days since 1970-01-01) of a civil date. -/
def daysFromCivil (y : ℤ) (m d : ℕ) : ℤ :=
  let y' := if m ≤ 2 then y - 1 else y
  let era := y'.fdiv 400
  let yoe := (y' - era * 400).toNat
  let mp := if 2 < m then m - 3 else m + 9
  let doy := (153 * mp + 2) / 5 + d - 1
  let doe := yoe * 365 + yoe / 4 - yoe / 100 + doy
  era * 146097 + (doe : ℤ) - 719468

/-- Two-digit zero padding, as in `%m` / `%d` formatting. -/
def pad2 (n : ℕ) : String :=
  if n < 10 then "0" ++ toString n else toString n

/-- Format a day number as `YYYY-MM-DD`, as `strftime("%Y-%m-%d")` and
`TO_CHAR(.., 'YYYY-MM-DD')` do. -/
def dateStr (z : ℤ) : String :=
  let c := civilFromDays z
  toString c.1 ++ "-" ++ pad2 c.2.1 ++ "-" ++ pad2 c.2.2

/-- Outcome of executing a database query: the result payload, or a raised
data-access error. -/
inductive DBOutcome (α : Type) where
  | ok (val : α)
  | failure (msg : String)

example : dateStr (daysFromCivil 2024 1 15) = "2024-01-15" := by decide

example : pyRound (125/100) 1 = 12/10 := by with_unfolding_all decide

example : pyRound (135/100) 1 = 14/10 := by with_unfolding_all decide

example : strContains "Sample Data (Database connection issue)" "Sample Data" = true := by
  decide

example : strContains "2024-01-15" "Sample Data" = false := by decide

/-! ## Batch recomputation (`scripts/reload_data.py`) -/

/-- A row of the raw `sales_data` table (only the columns the derived
tables read). `invoiceDate` is a day number; `country` is nullable. -/
structure Txn where
  invoiceDate : ℤ
  invoiceNo : ℕ
  totalRevenue : ℚ
  country : Option String
deriving DecidableEq, Repr

/-- A row of the `daily_sales` table built by `recreate_daily_sales`. -/
structure DailySalesRow where
  sale_date : ℤ
  daily_revenue : ℚ
  transaction_count : ℤ
  avg_order_value : ℚ
deriving DecidableEq, Repr

/-- The `GROUP BY DATE("InvoiceDate")` group of a given date. -/
def txnsOnDate (txns : List Txn) (d : ℤ) : List Txn :=
  txns.filter fun t => t.invoiceDate == d

/-- The `daily_sales` row of one date group:
`SUM("TotalRevenue")`, `COUNT(DISTINCT "InvoiceNo")`, `AVG("TotalRevenue")`. -/
def dailyRowFor (txns : List Txn) (d : ℤ) : DailySalesRow :=
  { sale_date := d,
    daily_revenue := ((txnsOnDate txns d).map (·.totalRevenue)).sum,
    transaction_count := (((txnsOnDate txns d).map (·.invoiceNo)).dedup).length,
    avg_order_value :=
      ((txnsOnDate txns d).map (·.totalRevenue)).sum / (txnsOnDate txns d).length }

/-- `recreate_daily_sales`: one row per distinct invoice date.
The SQL `ORDER BY sale_date` affects row order only; groups are listed
here in first-occurrence order. -/
def recreate_daily_sales (txns : List Txn) : List DailySalesRow :=
  ((txns.map (·.invoiceDate)).dedup).map (dailyRowFor txns)

/-- A row of the `country_summary` table built by
`recreate_country_summary`. The grouping key is the raw nullable
`"Country"` column value. -/
structure CountrySummaryRow where
  country : Option String
  total_revenue : ℚ
  transaction_count : ℤ
  avg_transaction_value : ℚ
  revenue_share_percentage : ℚ
deriving DecidableEq, Repr

/-- The `GROUP BY "Country"` group of a given (nullable) country value. -/
def txnsOfCountry (txns : List Txn) (c : Option String) : List Txn :=
  txns.filter fun t => t.country == c

/-- The `country_summary` row of one country group; `grand` is the
pre-computed `SELECT SUM("TotalRevenue") FROM sales_data` interpolated
into the query, so the share is `group_sum * 100.0 / grand`. -/
def countryRowFor (txns : List Txn) (grand : ℚ) (c : Option String) : CountrySummaryRow :=
  { country := c,
    total_revenue := ((txnsOfCountry txns c).map (·.totalRevenue)).sum,
    transaction_count := (((txnsOfCountry txns c).map (·.invoiceNo)).dedup).length,
    avg_transaction_value :=
      ((txnsOfCountry txns c).map (·.totalRevenue)).sum / (txnsOfCountry txns c).length,
    revenue_share_percentage :=
      ((txnsOfCountry txns c).map (·.totalRevenue)).sum * 100 / grand }

/-- `recreate_country_summary`: one row per distinct country value,
NULL country forming its own group (SQL `GROUP BY` keeps NULL keys). -/
def recreate_country_summary (txns : List Txn) : List CountrySummaryRow :=
  ((txns.map (·.country)).dedup).map
    (countryRowFor txns ((txns.map (·.totalRevenue)).sum))

/-! ## Sales endpoints (`backend/routers/sales.py`) -/

/-- Response model `SalesSummary`. -/
structure SalesSummary where
  total_revenue : ℚ
  total_orders : ℤ
  unique_customers : ℤ
  avg_order_value : ℚ
  period : String
deriving DecidableEq, Repr

/-- The single row of the summary aggregate query; each field may be SQL
NULL (the handler checks `result[i] is not None`). -/
structure SummaryRow where
  total_revenue : Option ℚ
  total_orders : Option ℤ
  unique_customers : Option ℤ
  avg_order_value : Option ℚ
deriving DecidableEq, Repr

/-- The hard-coded sample summary returned from the `except` branch of
`get_sales_summary`. -/
def sampleSalesSummary : SalesSummary :=
  { total_revenue := 125000050 / 100,
    total_orders := 15000,
    unique_customers := 5000,
    avg_order_value := 8333 / 100,
    period := "Sample Data (Database connection issue)" }

/-- `get_sales_summary`: on a successful query, NULL fields become 0 and
monetary fields are rounded to 2 decimals; any raised error is caught by
the `except` branch, which returns the sample summary. -/
def get_sales_summary (period : String) (o : DBOutcome SummaryRow) : SalesSummary :=
  match o with
  | .ok r =>
      { total_revenue := pyRound (r.total_revenue.getD 0) 2,
        total_orders := r.total_orders.getD 0,
        unique_customers := r.unique_customers.getD 0,
        avg_order_value := pyRound (r.avg_order_value.getD 0) 2,
        period := period }
  | .failure _ => sampleSalesSummary

/-- Response model `DailySales`. -/
structure DailySales where
  date : String
  revenue : ℚ
  orders : ℤ
  avg_order_value : ℚ
deriving DecidableEq, Repr

/-- Row-to-response mapping of the real-data path of `get_daily_sales`:
`TO_CHAR(sale_date, 'YYYY-MM-DD')` plus verbatim numeric fields. -/
def serveDailyRow (r : DailySalesRow) : DailySales :=
  { date := dateStr r.sale_date,
    revenue := r.daily_revenue,
    orders := r.transaction_count,
    avg_order_value := r.avg_order_value }

/-- The synthetic daily series: for `i = 0 .. days-1`, the date is
`today - timedelta(days=i)` and the numbers are
`round(1000 + i*10, 2)`, `50 + i`, `round(20 + i*0.5, 2)`. -/
def dailySalesSample (days : ℕ) (today : ℤ) : List DailySales :=
  (List.range days).map fun i : ℕ =>
    { date := dateStr (today - (i : ℤ)),
      revenue := pyRound (1000 + (i : ℚ) * 10) 2,
      orders := 50 + (i : ℤ),
      avg_order_value := pyRound (20 + (i : ℚ) * (1 / 2)) 2 }

/-- The three ways the `get_daily_sales` body can go: the `daily_sales`
table is absent, the query succeeds with some rows, or a query raises. -/
inductive DailyInput where
  | noTable
  | table (rows : List DailySalesRow)
  | dbError (msg : String)

/-- `get_daily_sales`: serves real rows when the table exists and the
query returned any; otherwise falls through to `dailySalesSample days`;
the `except` branch generates only `min(days, 30)` sample rows. -/
def get_daily_sales (days : ℕ) (today : ℤ) : DailyInput → List DailySales
  | .noTable => dailySalesSample days today
  | .table rows =>
      if rows.isEmpty then dailySalesSample days today
      else rows.map serveDailyRow
  | .dbError _ => dailySalesSample (min days 30) today

/-- Response model `CountrySales`. -/
structure CountrySales where
  country : String
  total_revenue : ℚ
  transaction_count : ℤ
  revenue_share : ℚ
deriving DecidableEq, Repr

/-- Row-to-response mapping of the real-data path of `get_country_sales`:
`row[0] or "Unknown"` maps NULL and the empty string to "Unknown". -/
def serveCountryRow (r : CountrySummaryRow) : CountrySales :=
  { country :=
      match r.country with
      | none => "Unknown"
      | some s => if s = "" then "Unknown" else s,
    total_revenue := r.total_revenue,
    transaction_count := r.transaction_count,
    revenue_share := r.revenue_share_percentage }

/-- The hard-coded sample country list of the no-table/empty path. -/
def countrySample : List CountrySales :=
  [{ country := "United Kingdom", total_revenue := 850000, transaction_count := 12000,
     revenue_share := 68 },
   { country := "Germany", total_revenue := 150000, transaction_count := 2000,
     revenue_share := 12 },
   { country := "France", total_revenue := 120000, transaction_count := 1800,
     revenue_share := 96 / 10 },
   { country := "Spain", total_revenue := 80000, transaction_count := 1000,
     revenue_share := 64 / 10 },
   { country := "Netherlands", total_revenue := 50000, transaction_count := 700,
     revenue_share := 4 }]

/-- The two-row sample list of the `except` branch of `get_country_sales`
(served without the `[:limit]` slice). -/
def countrySampleExc : List CountrySales :=
  [{ country := "United Kingdom", total_revenue := 850000, transaction_count := 12000,
     revenue_share := 68 },
   { country := "Germany", total_revenue := 150000, transaction_count := 2000,
     revenue_share := 12 }]

/-- The three ways the `get_country_sales` body can go. -/
inductive CountryInput where
  | noTable
  | table (rows : List CountrySummaryRow)
  | dbError (msg : String)

/-- `get_country_sales` over the rows its query returned (the SQL applies
`ORDER BY total_revenue DESC LIMIT :limit`). -/
def get_country_sales (limit : ℕ) : CountryInput → List CountrySales
  | .noTable => countrySample.take limit
  | .table rows =>
      if rows.isEmpty then countrySample.take limit
      else rows.map serveCountryRow
  | .dbError _ => countrySampleExc

/-- Response model `ProductPerformance`. -/
structure ProductPerformance where
  description : String
  total_quantity : ℤ
  total_revenue : ℚ
  avg_price : ℚ
deriving DecidableEq, Repr

/-- A row of the `product_performance` query result; the description is
nullable. -/
structure ProductRow where
  description : Option String
  total_quantity : ℤ
  total_revenue : ℚ
  avg_unit_price : ℚ
deriving DecidableEq, Repr

/-- Row-to-response mapping of the real-data path of `get_top_products`:
`row[0][:50] + "..." if row[0] and len(row[0]) > 50 else (row[0] or "Unknown")`. -/
def serveProductRow (r : ProductRow) : ProductPerformance :=
  { description :=
      match r.description with
      | none => "Unknown"
      | some s =>
          if 50 < s.length then s.take 50 ++ "..."
          else if s = "" then "Unknown" else s,
    total_quantity := r.total_quantity,
    total_revenue := r.total_revenue,
    avg_price := r.avg_unit_price }

/-- The hard-coded sample product list of the no-table/empty path. -/
def productSample : List ProductPerformance :=
  [{ description := "Product A", total_quantity := 1500, total_revenue := 75000, avg_price := 50 },
   { description := "Product B", total_quantity := 1200, total_revenue := 60000, avg_price := 50 },
   { description := "Product C", total_quantity := 1000, total_revenue := 50000, avg_price := 50 },
   { description := "Product D", total_quantity := 800, total_revenue := 40000, avg_price := 50 },
   { description := "Product E", total_quantity := 600, total_revenue := 30000, avg_price := 50 }]

/-- The two-row sample list of the `except` branch of `get_top_products`. -/
def productSampleExc : List ProductPerformance :=
  [{ description := "Sample Product 1", total_quantity := 100, total_revenue := 5000,
     avg_price := 50 },
   { description := "Sample Product 2", total_quantity := 80, total_revenue := 4000,
     avg_price := 50 }]

/-- The three ways the `get_top_products` body can go. -/
inductive ProductInput where
  | noTable
  | table (rows : List ProductRow)
  | dbError (msg : String)

/-- `get_top_products` over the rows its query returned. -/
def get_top_products (limit : ℕ) : ProductInput → List ProductPerformance
  | .noTable => productSample.take limit
  | .table rows =>
      if rows.isEmpty then productSample.take limit
      else rows.map serveProductRow
  | .dbError _ => productSampleExc

/-! ## Customer endpoints (`backend/routers/customers.py`)

None of these handlers has a `try/except`; a raised data-access error
crosses the endpoint boundary, which the model expresses by mapping
`DBOutcome.failure` to `Except.error`. The response models `RFMCustomer`
and `SegmentSummary` copy the selected columns field by field, so the
query row types double as response types. -/

/-- A row of the `rfm_segments` table. -/
structure RfmRow where
  customerid : String
  recency : ℤ
  frequency : ℤ
  monetary : ℚ
  r_score : ℤ
  f_score : ℤ
  m_score : ℤ
  rfm_score : ℤ
  segment : String
deriving DecidableEq, Repr

/-- A row of the `segment_summary` table (also the shape of the
`SegmentSummary` response model). -/
structure SegmentSummaryRow where
  segment : String
  customer_count : ℤ
  total_revenue : ℚ
  avg_monetary : ℚ
  customer_percentage : ℚ
  revenue_percentage : ℚ
deriving DecidableEq, Repr

/-- `get_segment_summary`: serves its query rows verbatim; has no
handler, so a failed query propagates. -/
def get_segment_summary :
    DBOutcome (List SegmentSummaryRow) → Except String (List SegmentSummaryRow)
  | .ok rows => .ok rows
  | .failure msg => .error msg

/-- `get_top_customers` over the rows of its query
(`ORDER BY rfm_score DESC, monetary DESC LIMIT :limit` runs in SQL);
no handler, so a failed query propagates. -/
def get_top_customers : DBOutcome (List RfmRow) → Except String (List RfmRow)
  | .ok rows => .ok rows
  | .failure msg => .error msg

/-- `get_at_risk_customers` over the rows of its query (the SQL filters
`segment LIKE '%At Risk%' OR segment LIKE '%Lost%'`); no handler. -/
def get_at_risk_customers : DBOutcome (List RfmRow) → Except String (List RfmRow)
  | .ok rows => .ok rows
  | .failure msg => .error msg

/-- `get_champion_customers` over the rows of its query (the SQL filters
`segment LIKE '%Champion%'`); no handler. -/
def get_champion_customers : DBOutcome (List RfmRow) → Except String (List RfmRow)
  | .ok rows => .ok rows
  | .failure msg => .error msg

/-- Response model `CustomerValue`. -/
structure CustomerValue where
  customerid : String
  total_spent : ℚ
  total_orders : ℤ
  avg_order_value : ℚ
  days_since_last_order : ℤ
  segment : String
deriving DecidableEq, Repr

/-- An HTTP error raised by a handler (`HTTPException`). -/
structure HttpError where
  status : ℕ
  detail : String
deriving DecidableEq, Repr

/-- The field mapping of `get_customer_details`: the SQL computes
`monetary / NULLIF(frequency, 0)` (NULL when frequency is 0) and the
Python applies `float(result[3]) if result[3] else 0`. -/
def customerValueOfRow (r : RfmRow) : CustomerValue :=
  { customerid := r.customerid,
    total_spent := r.monetary,
    total_orders := r.frequency,
    avg_order_value :=
      pyTruthyFloat (if r.frequency = 0 then none else some (r.monetary / r.frequency)),
    days_since_last_order := r.recency,
    segment := r.segment }

/-- `get_customer_details`: `WHERE r.customerid = :customer_id` with
`.first()` is the first matching row of the table; no row raises
`HTTPException(404, "Customer not found")`. -/
def get_customer_details (table : List RfmRow) (customer_id : String) :
    Except HttpError CustomerValue :=
  match table.find? (fun r => r.customerid == customer_id) with
  | none => .error { status := 404, detail := "Customer not found" }
  | some r => .ok (customerValueOfRow r)

/-! ## Forecast endpoints (`backend/routers/forecast.py`)

None of these handlers has a `try/except` either. An empty
`sales_forecast` table makes the SQL aggregates NULL and the Python
`float(None)` conversions raise a `TypeError`, modelled as an error
result as well. -/

/-- A row of the `sales_forecast` table. -/
structure ForecastRow where
  forecast_date : ℤ
  predicted_revenue : ℚ
  confidence_lower : ℚ
  confidence_upper : ℚ
  month : String
deriving DecidableEq, Repr

/-- Response model `ForecastDay`. -/
structure ForecastDay where
  date : String
  predicted_revenue : ℚ
  confidence_lower : ℚ
  confidence_upper : ℚ
  month : String
deriving DecidableEq, Repr

/-- Row-to-response mapping of `get_daily_forecast`. -/
def serveForecastRow (r : ForecastRow) : ForecastDay :=
  { date := dateStr r.forecast_date,
    predicted_revenue := r.predicted_revenue,
    confidence_lower := r.confidence_lower,
    confidence_upper := r.confidence_upper,
    month := r.month }

/-- `get_daily_forecast` over the rows of its query
(`ORDER BY forecast_date LIMIT :days` runs in SQL); no handler. -/
def get_daily_forecast : DBOutcome (List ForecastRow) → Except String (List ForecastDay)
  | .ok rows => .ok (rows.map serveForecastRow)
  | .failure msg => .error msg

/-- A row of the `monthly_forecast` table (also the `MonthlyForecast`
response shape). -/
structure MonthlyForecastRow where
  forecast_month : String
  predicted_revenue : ℚ
deriving DecidableEq, Repr

/-- `get_monthly_forecast` over the rows of its query; no handler. -/
def get_monthly_forecast :
    DBOutcome (List MonthlyForecastRow) → Except String (List MonthlyForecastRow)
  | .ok rows => .ok rows
  | .failure msg => .error msg

/-- Response model `ForecastSummary`. -/
structure ForecastSummary where
  total_forecast : ℚ
  avg_daily : ℚ
  peak_day : String
  peak_value : ℚ
  low_day : String
  low_value : ℚ
  days_forecasted : ℕ
deriving DecidableEq, Repr

/-- The peak-day query:
`WHERE predicted_revenue = (SELECT MAX(predicted_revenue) ..) LIMIT 1`,
i.e. the first row in table-scan order attaining the maximum. -/
def peakDayOfTable (rows : List ForecastRow) : Option String :=
  ((rows.filter fun r =>
      sqlMax (rows.map (·.predicted_revenue)) == some r.predicted_revenue).head?).map
    fun r => dateStr r.forecast_date

/-- The low-day query, symmetric with `peakDayOfTable` using `MIN`. -/
def lowDayOfTable (rows : List ForecastRow) : Option String :=
  ((rows.filter fun r =>
      sqlMin (rows.map (·.predicted_revenue)) == some r.predicted_revenue).head?).map
    fun r => dateStr r.forecast_date

/-- The body of `get_forecast_summary`: `SUM`/`AVG`/`MAX`/`MIN`/`COUNT`
over `sales_forecast` plus the two limit-1 date queries; on an empty
table the aggregates are NULL and `float(None)` raises (`none` here). -/
def mkForecastSummary (rows : List ForecastRow) : Option ForecastSummary :=
  match sqlMax (rows.map (·.predicted_revenue)),
        sqlMin (rows.map (·.predicted_revenue)),
        peakDayOfTable rows, lowDayOfTable rows with
  | some mx, some mn, some pd, some ld =>
      some { total_forecast := (rows.map (·.predicted_revenue)).sum,
             avg_daily := (rows.map (·.predicted_revenue)).sum / rows.length,
             peak_day := pd,
             peak_value := mx,
             low_day := ld,
             low_value := mn,
             days_forecasted := rows.length }
  | _, _, _, _ => none

/-- `get_forecast_summary` endpoint: no handler, so both a failed query
and the empty-table `TypeError` cross the boundary. -/
def get_forecast_summary : DBOutcome (List ForecastRow) → Except String ForecastSummary
  | .failure msg => .error msg
  | .ok rows =>
      match mkForecastSummary rows with
      | some s => .ok s
      | none => .error "TypeError: float() argument cannot be None"

/-- Lines 163-170 of `forecast.py`: the growth computation.
`historical_avg = float(..) if .. else 0` is `pyTruthyFloat` of the SQL
average, and the division only runs under the `historical_avg > 0`
guard, so its divisor is nonzero (no NaN/Inf can arise). -/
def forecastGrowth (forecast_avg : ℚ) (historical_avg_sql : Option ℚ) : ℚ :=
  if 0 < pyTruthyFloat historical_avg_sql then
    ((forecast_avg - pyTruthyFloat historical_avg_sql) / pyTruthyFloat historical_avg_sql) * 100
  else 0

/-- The insights response dictionary. -/
structure ForecastInsights where
  total_forecast_next_90days : ℚ
  average_daily_forecast : ℚ
  average_daily_historical : ℚ
  expected_growth_percentage : ℚ
  peak_month : Option String
  peak_month_revenue : Option ℚ
  recommendations : List String
deriving DecidableEq, Repr

/-- The peak-month query
(`ORDER BY predicted_revenue DESC LIMIT 1` over `monthly_forecast`),
a row attaining the maximum predicted revenue. -/
def peakMonthRow (monthly : List MonthlyForecastRow) : Option MonthlyForecastRow :=
  (monthly.filter fun r =>
      sqlMax (monthly.map (·.predicted_revenue)) == some r.predicted_revenue).head?

/-- The data the three insight queries return: the `sales_forecast`
revenue column, the trailing-90-day `daily_sales` revenue column, and
the `monthly_forecast` rows. -/
structure InsightsData where
  forecast_revenues : List ℚ
  historical_daily : List ℚ
  monthly : List MonthlyForecastRow
deriving DecidableEq, Repr

/-- The insights dictionary built once `forecast_avg` has been extracted
(the remainder of the `get_forecast_insights` body). -/
def insightsBody (forecast_revenues historical_daily : List ℚ)
    (monthly : List MonthlyForecastRow) (forecast_avg : ℚ) : ForecastInsights :=
  { total_forecast_next_90days := pyRound forecast_revenues.sum 2,
    average_daily_forecast := pyRound forecast_avg 2,
    average_daily_historical := pyRound (pyTruthyFloat (sqlAvg historical_daily)) 2,
    expected_growth_percentage :=
      pyRound (forecastGrowth forecast_avg (sqlAvg historical_daily)) 1,
    peak_month := (peakMonthRow monthly).map (·.forecast_month),
    peak_month_revenue := (peakMonthRow monthly).map fun r => pyRound r.predicted_revenue 2,
    recommendations :=
      ["Increase inventory by " ++
         toString (max 0 (roundHalfEven
           (forecastGrowth forecast_avg (sqlAvg historical_daily)))) ++
         "% to meet expected demand",
       "Prepare for peak season in " ++
         (match peakMonthRow monthly with
          | some r => r.forecast_month
          | none => "upcoming months"),
       "Plan promotions during low periods to boost sales",
       "Ensure adequate staffing for predicted busy periods"] }

/-- The body of `get_forecast_insights`. An empty `sales_forecast` makes
`float(forecast_result[1])` raise (`none`); the historical average is
guarded by the falsy check instead. -/
def mkForecastInsights (d : InsightsData) : Option ForecastInsights :=
  match sqlAvg d.forecast_revenues with
  | none => none
  | some forecast_avg =>
      some (insightsBody d.forecast_revenues d.historical_daily d.monthly forecast_avg)

/-- `get_forecast_insights` endpoint: no handler, failures propagate. -/
def get_forecast_insights : DBOutcome InsightsData → Except String ForecastInsights
  | .failure msg => .error msg
  | .ok d =>
      match mkForecastInsights d with
      | some ins => .ok ins
      | none => .error "TypeError: float() argument cannot be None"

/-- Whether an `Except` result is a success. -/
def exceptOk {ε α : Type} : Except ε α → Bool
  | .ok _ => true
  | .error _ => false

/-! ## Concrete fixtures used by witnesses and counterexamples -/

/-- Two same-day invoices, one a return: the example of the spec. -/
def txnsReturnDay : List Txn :=
  [{ invoiceDate := 0, invoiceNo := 1, totalRevenue := 100, country := none },
   { invoiceDate := 0, invoiceNo := 2, totalRevenue := -20, country := none }]

/-- Three transactions across a named country, a NULL country and an
empty-string country, with grand total 100. -/
def txnsCountries : List Txn :=
  [{ invoiceDate := 0, invoiceNo := 1, totalRevenue := 60, country := some "UK" },
   { invoiceDate := 0, invoiceNo := 2, totalRevenue := 30, country := none },
   { invoiceDate := 0, invoiceNo := 3, totalRevenue := 10, country := some "" }]

/-- The spec's forecast example: three days with revenues 100, 200, 150. -/
def forecastExample : List ForecastRow :=
  [{ forecast_date := 0, predicted_revenue := 100, confidence_lower := 90,
     confidence_upper := 110, month := "1970-01" },
   { forecast_date := 1, predicted_revenue := 200, confidence_lower := 190,
     confidence_upper := 210, month := "1970-01" },
   { forecast_date := 2, predicted_revenue := 150, confidence_lower := 140,
     confidence_upper := 160, month := "1970-01" }]

/-- A one-customer RFM table. -/
def rfmTableOne : List RfmRow :=
  [{ customerid := "C1", recency := 10, frequency := 2, monetary := 100,
     r_score := 5, f_score := 5, m_score := 5, rfm_score := 555, segment := "Champions" }]

/-- A customer row with frequency 0. -/
def rfmRowZeroFreq : RfmRow :=
  { customerid := "C2", recency := 400, frequency := 0, monetary := 50,
    r_score := 1, f_score := 1, m_score := 1, rfm_score := 111, segment := "Lost" }

/-- A one-customer RFM table whose only row has frequency 0. -/
def rfmTableZeroFreq : List RfmRow := [rfmRowZeroFreq]

/-! ## Helper lemmas -/

theorem roundHalfEven_intCast (n : ℤ) : roundHalfEven (n : ℚ) = n := by
  have h1 : ratFloor (n : ℚ) = n := by
    rw [ratFloor_eq_floor, Int.floor_intCast]
  simp only [roundHalfEven, h1]
  norm_num

/-- Python rounding is the identity on values already exact at the target
precision. -/
theorem pyRound_eq_self {q : ℚ} {n : ℕ} (m : ℤ) (h : q * 10 ^ n = m) : pyRound q n = q := by
  unfold pyRound
  rw [h, roundHalfEven_intCast, ← h]
  exact mul_div_cancel_right₀ q (by positivity)

theorem pyRound_zero (n : ℕ) : pyRound 0 n = 0 :=
  pyRound_eq_self 0 (by push_cast; ring)

/-- The falsy-guarded SQL average equals the plain average, with 0 for an
empty column. -/
theorem pyTruthyFloat_sqlAvg (xs : List ℚ) :
    pyTruthyFloat (sqlAvg xs) = if xs.isEmpty then 0 else xs.sum / xs.length := by
  unfold pyTruthyFloat sqlAvg
  by_cases h : xs.isEmpty
  · simp [h]
  · simp only [h, if_false]
    by_cases h2 : xs.sum / xs.length = 0 <;> simp [h2]

/-- Reduction of the insights body once the forecast average exists. -/
theorem mkForecastInsights_some {d : InsightsData} {favg : ℚ}
    (hfa : sqlAvg d.forecast_revenues = some favg) :
    mkForecastInsights d =
      some (insightsBody d.forecast_revenues d.historical_daily d.monthly favg) := by
  unfold mkForecastInsights
  rw [hfa]

/-- The growth computation written out over both branches. -/
theorem forecastGrowth_eq (favg : ℚ) (hrevs : List ℚ) :
    forecastGrowth favg (sqlAvg hrevs) =
      if 0 < (if hrevs.isEmpty then (0 : ℚ) else hrevs.sum / hrevs.length) then
        (favg - hrevs.sum / hrevs.length) / (hrevs.sum / hrevs.length) * 100
      else 0 := by
  rw [forecastGrowth, pyTruthyFloat_sqlAvg]
  by_cases h : hrevs.isEmpty
  · simp [h]
  · simp [h]

theorem sqlMax_mem : ∀ {xs : List ℚ} {m : ℚ}, sqlMax xs = some m → m ∈ xs := by
  intro xs
  induction xs with
  | nil => intro m h; simp [sqlMax] at h
  | cons x t ih =>
    intro m h
    cases ht : sqlMax t with
    | none => rw [sqlMax, ht] at h; simp at h; simp [h]
    | some mt =>
      rw [sqlMax, ht] at h
      simp at h
      rcases max_choice x mt with hc | hc <;> rw [hc] at h
      · simp [h]
      · exact List.mem_cons_of_mem _ (h ▸ ih ht)

theorem le_sqlMax : ∀ {xs : List ℚ} {m : ℚ}, sqlMax xs = some m → ∀ x ∈ xs, x ≤ m := by
  intro xs
  induction xs with
  | nil => intro m _ x hx; simp at hx
  | cons a t ih =>
    intro m h y hy
    rcases List.mem_cons.mp hy with hy | hy
    · subst hy
      cases ht : sqlMax t with
      | none => rw [sqlMax, ht] at h; simp at h; rw [← h]
      | some mt => rw [sqlMax, ht] at h; simp at h; rw [← h]; exact le_max_left _ _
    · cases ht : sqlMax t with
      | none =>
        cases t with
        | nil => simp at hy
        | cons b u => rw [sqlMax] at ht; simp at ht
      | some mt =>
        rw [sqlMax, ht] at h; simp at h
        exact le_trans (ih ht y hy) (h ▸ le_max_right a mt)

theorem sqlMin_mem : ∀ {xs : List ℚ} {m : ℚ}, sqlMin xs = some m → m ∈ xs := by
  intro xs
  induction xs with
  | nil => intro m h; simp [sqlMin] at h
  | cons x t ih =>
    intro m h
    cases ht : sqlMin t with
    | none => rw [sqlMin, ht] at h; simp at h; simp [h]
    | some mt =>
      rw [sqlMin, ht] at h
      simp at h
      rcases min_choice x mt with hc | hc <;> rw [hc] at h
      · simp [h]
      · exact List.mem_cons_of_mem _ (h ▸ ih ht)

theorem sqlMin_le : ∀ {xs : List ℚ} {m : ℚ}, sqlMin xs = some m → ∀ x ∈ xs, m ≤ x := by
  intro xs
  induction xs with
  | nil => intro m _ x hx; simp at hx
  | cons a t ih =>
    intro m h y hy
    rcases List.mem_cons.mp hy with hy | hy
    · subst hy
      cases ht : sqlMin t with
      | none => rw [sqlMin, ht] at h; simp at h; rw [← h]
      | some mt => rw [sqlMin, ht] at h; simp at h; rw [← h]; exact min_le_left _ _
    · cases ht : sqlMin t with
      | none =>
        cases t with
        | nil => simp at hy
        | cons b u => rw [sqlMin] at ht; simp at ht
      | some mt =>
        rw [sqlMin, ht] at h; simp at h
        exact le_trans (h ▸ min_le_right a mt) (ih ht y hy)

theorem sqlMax_of_ne_nil {xs : List ℚ} (h : xs ≠ []) : ∃ m, sqlMax xs = some m := by
  cases xs with
  | nil => exact absurd rfl h
  | cons a t => exact ⟨_, rfl⟩

theorem sqlMin_of_ne_nil {xs : List ℚ} (h : xs ≠ []) : ∃ m, sqlMin xs = some m := by
  cases xs with
  | nil => exact absurd rfl h
  | cons a t => exact ⟨_, rfl⟩

/-- Finding a key in a list that contains it. -/
theorem find?_beq_self {α : Type} [BEq α] [LawfulBEq α] :
    ∀ {l : List α} {d : α}, d ∈ l → l.find? (fun k => k == d) = some d := by
  intro l
  induction l with
  | nil => intro d h; simp at h
  | cons a t ih =>
    intro d h
    by_cases ha : a = d
    · subst ha; simp [List.find?_cons]
    · have hb : (a == d) = false := beq_false_of_ne ha
      rw [List.find?_cons, hb]
      rcases List.mem_cons.mp h with h1 | h1
      · exact absurd h1.symm ha
      · exact ih h1

/-- Pointwise sum distribution over a mapped list. -/
theorem sum_map_add_distrib {α : Type} (l : List α) (f g : α → ℚ) :
    (l.map fun a => f a + g a).sum = (l.map f).sum + (l.map g).sum := by
  induction l with
  | nil => simp
  | cons a t ih => simp [ih]; ring

/-- Summing an indicator over a duplicate-free key list that contains the
key yields the single value. -/
theorem sum_map_ite_eq {α : Type} [DecidableEq α] :
    ∀ {keys : List α}, keys.Nodup → ∀ {c : α}, c ∈ keys → ∀ v : ℚ,
      (keys.map fun k => if c = k then v else 0).sum = v := by
  intro keys
  induction keys with
  | nil => intro _ c hc; simp at hc
  | cons a t ih =>
    intro hnd c hc v
    rcases List.nodup_cons.mp hnd with ⟨ha, ht⟩
    rcases List.mem_cons.mp hc with hc | hc
    · subst hc
      have hz : (t.map fun k => if c = k then v else 0).sum = 0 := by
        apply List.sum_eq_zero
        intro x hx
        rcases List.mem_map.mp hx with ⟨k, hk, hke⟩
        rw [← hke, if_neg]
        intro he; exact ha (by rwa [← he] at hk)
      simp [List.map_cons, List.sum_cons, hz, add_zero]
    · have hne : c ≠ a := fun he => ha (by rwa [he] at hc)
      simp only [List.map_cons, List.sum_cons, if_neg hne, zero_add]
      exact ih ht hc v

/-- Grouping a list by key and summing each group recovers the total sum,
for any duplicate-free covering key list. -/
theorem sum_filter_key {α κ : Type} [BEq κ] [LawfulBEq κ] [DecidableEq κ]
    (key : α → κ) (f : α → ℚ) :
    ∀ (l : List α) (keys : List κ), keys.Nodup → (∀ x ∈ l, key x ∈ keys) →
      (keys.map fun k => ((l.filter fun x => key x == k).map f).sum).sum = (l.map f).sum := by
  intro l
  induction l with
  | nil => intro keys _ _; simp
  | cons a t ih =>
    intro keys hnd hcov
    have hstep :
        (keys.map fun k => (((a :: t).filter fun x => key x == k).map f).sum) =
          keys.map fun k =>
            (if key a = k then f a else 0) + ((t.filter fun x => key x == k).map f).sum := by
      apply List.map_congr_left
      intro k _
      by_cases h : key a = k
      · rw [if_pos h]
        have : ((a :: t).filter fun x => key x == k) = a :: t.filter fun x => key x == k := by
          rw [List.filter_cons, if_pos (by simpa using h)]
        rw [this, List.map_cons, List.sum_cons]
      · rw [if_neg h]
        have : ((a :: t).filter fun x => key x == k) = t.filter fun x => key x == k := by
          rw [List.filter_cons, if_neg (by simpa using h)]
        rw [this, zero_add]
    rw [hstep, sum_map_add_distrib,
        sum_map_ite_eq hnd (hcov a (List.mem_cons_self a t)) (f a),
        ih keys hnd (fun x hx => hcov x (List.mem_cons_of_mem a hx)),
        List.map_cons, List.sum_cons]

/-! ## Claim theorems -/

/-- C2 counterexample: the degraded-mode output of the daily sales
endpoint (here: missing `daily_sales` table, one requested day) carries
no sample-data marker at all — its only text field is a plain formatted
date that does not contain "Sample Data" — and it is moreover literally
equal to the response served from a real table row with the same
numbers, so a caller cannot distinguish synthetic from real results. -/
theorem daily_fallback_unmarked_counterexample :
    get_daily_sales 1 (daysFromCivil 2024 1 15) .noTable =
      [{ date := "2024-01-15", revenue := 1000, orders := 50, avg_order_value := 20 }] ∧
    strContains "2024-01-15" "Sample Data" = false ∧
    get_daily_sales 1 (daysFromCivil 2024 1 15)
        (.table [{ sale_date := daysFromCivil 2024 1 15, daily_revenue := 1000,
                   transaction_count := 50, avg_order_value := 20 }]) =
      get_daily_sales 1 (daysFromCivil 2024 1 15) .noTable := by
  refine ⟨?_, by decide, ?_⟩ <;>
    (set_option maxRecDepth 10000 in with_unfolding_all decide)

/-- C2 amended: only the sales-summary fallback output carries the
"Sample Data" marker (in its `period` field); the country and product
fallback lists, in both their no-table and exception variants, contain
no sample-data marker in any text field (the daily fallback is covered
by the counterexample above). -/
theorem sample_marker_only_summary :
    (∀ period msg,
        strContains (get_sales_summary period (.failure msg)).period "Sample Data" = true) ∧
    (countrySample.all fun r => !(strContains r.country "Sample Data")) = true ∧
    (countrySampleExc.all fun r => !(strContains r.country "Sample Data")) = true ∧
    (productSample.all fun r => !(strContains r.description "Sample Data")) = true := by
  refine ⟨fun period msg => ?_, by decide, by decide, by decide⟩
  show strContains sampleSalesSummary.period "Sample Data" = true
  decide

/-- C3 counterexample: the segment-summary endpoint has no handler, so a
data-access failure is served as an error, not as a degraded synthetic
result. -/
theorem segment_summary_error_counterexample :
    exceptOk (get_segment_summary (.failure "connection refused")) = false := rfl

/-- C3 amended: the sales endpoints catch data-access failures and
degrade to their synthetic sample payloads, but every customer and
forecast endpoint lacks a handler and propagates the failure past its
boundary. -/
theorem fallback_vs_propagation :
    (∀ msg period, get_sales_summary period (.failure msg) = sampleSalesSummary) ∧
    (∀ msg days today,
        get_daily_sales days today (.dbError msg) = dailySalesSample (min days 30) today) ∧
    (∀ msg limit, get_country_sales limit (.dbError msg) = countrySampleExc) ∧
    (∀ msg limit, get_top_products limit (.dbError msg) = productSampleExc) ∧
    (∀ msg, get_segment_summary (.failure msg) = .error msg) ∧
    (∀ msg, get_top_customers (.failure msg) = .error msg) ∧
    (∀ msg, get_at_risk_customers (.failure msg) = .error msg) ∧
    (∀ msg, get_champion_customers (.failure msg) = .error msg) ∧
    (∀ msg, get_daily_forecast (.failure msg) = .error msg) ∧
    (∀ msg, get_monthly_forecast (.failure msg) = .error msg) ∧
    (∀ msg, get_forecast_summary (.failure msg) = .error msg) ∧
    (∀ msg, get_forecast_insights (.failure msg) = .error msg) :=
  ⟨fun _ _ => rfl, fun _ _ _ => rfl, fun _ _ => rfl, fun _ _ => rfl, fun _ => rfl,
   fun _ => rfl, fun _ => rfl, fun _ => rfl, fun _ => rfl, fun _ => rfl,
   fun _ => rfl, fun _ => rfl⟩

/-- C9: the single-key customer lookup returns the (first) matching row's
record exactly when a row with the requested id exists, and raises the
404 "Customer not found" error — not a degraded fallback — when none
does. -/
theorem customer_lookup_404 (table : List RfmRow) (cid : String) :
    ((∀ r ∈ table, r.customerid ≠ cid) →
      get_customer_details table cid =
        .error { status := 404, detail := "Customer not found" }) ∧
    (∀ r, table.find? (fun x => x.customerid == cid) = some r →
      get_customer_details table cid = .ok (customerValueOfRow r)) ∧
    ((∃ r ∈ table, r.customerid = cid) →
      exceptOk (get_customer_details table cid) = true) := by
  refine ⟨?_, ?_, ?_⟩
  · intro hall
    have hn : table.find? (fun x => x.customerid == cid) = none := by
      rw [List.find?_eq_none]
      intro x hx
      simpa using hall x hx
    unfold get_customer_details
    rw [hn]
  · intro r hr
    unfold get_customer_details
    rw [hr]
  · intro hex
    obtain ⟨r, hr, he⟩ := hex
    have hs : (table.find? fun x => x.customerid == cid).isSome := by
      rw [List.find?_isSome]
      exact ⟨r, hr, by simpa using he⟩
    unfold get_customer_details
    cases hf : table.find? (fun x => x.customerid == cid) with
    | none => rw [hf] at hs; simp at hs
    | some r2 => rfl

/-- Witness for C9 at a concrete table: a present key is served, an
absent key gets the 404 error. -/
theorem customer_lookup_404_witness :
    exceptOk (get_customer_details rfmTableOne "C1") = true ∧
    get_customer_details rfmTableOne "ZZ" =
      .error { status := 404, detail := "Customer not found" } := by
  constructor
  · exact (customer_lookup_404 rfmTableOne "C1").2.2 (by decide)
  · exact (customer_lookup_404 rfmTableOne "ZZ").1 (by decide)

/-- C10: for a customer row found in the RFM table the lookup is total:
the NULLIF guard plus the falsy check turn a zero frequency into
avg_order_value = 0, and a nonzero frequency yields the true quotient
(the quotient 0 also collapsing to 0 harmlessly). -/
theorem customer_avg_guarded (table : List RfmRow) (cid : String) (r : RfmRow)
    (h : table.find? (fun x => x.customerid == cid) = some r) :
    get_customer_details table cid = .ok (customerValueOfRow r) ∧
    (r.frequency = 0 → (customerValueOfRow r).avg_order_value = 0) ∧
    (r.frequency ≠ 0 →
      (customerValueOfRow r).avg_order_value = r.monetary / r.frequency) := by
  refine ⟨?_, ?_, ?_⟩
  · unfold get_customer_details
    rw [h]
  · intro h0
    show pyTruthyFloat (if r.frequency = 0 then none
                        else some (r.monetary / r.frequency)) = 0
    rw [if_pos h0]
    rfl
  · intro h0
    show pyTruthyFloat (if r.frequency = 0 then none
                        else some (r.monetary / r.frequency)) = r.monetary / r.frequency
    rw [if_neg h0]
    unfold pyTruthyFloat
    by_cases hq : r.monetary / (r.frequency : ℚ) = 0
    · simp [hq]
    · simp [hq]

/-- Witness for C10 at a concrete frequency-0 row: the lookup succeeds
with avg_order_value 0 instead of failing on the division. -/
theorem customer_avg_guarded_witness :
    get_customer_details rfmTableZeroFreq "C2" = .ok (customerValueOfRow rfmRowZeroFreq) ∧
    (customerValueOfRow rfmRowZeroFreq).avg_order_value = 0 := by
  have h := customer_avg_guarded rfmTableZeroFreq "C2" rfmRowZeroFreq (by rfl)
  exact ⟨h.1, h.2.1 (by rfl)⟩

/-- C1: for every non-empty forecast series, the computed growth equals
`(avg_daily_forecast - avg_daily_historical) / avg_daily_historical * 100`
exactly when the historical daily average is strictly positive, and is
exactly 0 otherwise (empty window, zero or negative average). In this
exact rational embedding the division happens only under the
`historical_avg > 0` guard, so its divisor is nonzero and no NaN/Inf
value can arise; the response field is the 1-decimal rounding of the
computed growth, and exactly 0 in the guarded branch. -/
theorem forecast_growth_formula (frevs hrevs : List ℚ) (monthly : List MonthlyForecastRow)
    (hne : frevs ≠ []) :
    ∃ ins, mkForecastInsights ⟨frevs, hrevs, monthly⟩ = some ins ∧
      ins.expected_growth_percentage =
        pyRound (forecastGrowth (frevs.sum / frevs.length) (sqlAvg hrevs)) 1 ∧
      ((0 < (if hrevs.isEmpty then (0 : ℚ) else hrevs.sum / hrevs.length)) →
        forecastGrowth (frevs.sum / frevs.length) (sqlAvg hrevs) =
          (frevs.sum / frevs.length - hrevs.sum / hrevs.length) /
            (hrevs.sum / hrevs.length) * 100) ∧
      (¬ (0 < (if hrevs.isEmpty then (0 : ℚ) else hrevs.sum / hrevs.length)) →
        forecastGrowth (frevs.sum / frevs.length) (sqlAvg hrevs) = 0 ∧
        ins.expected_growth_percentage = 0) := by
  have hfa : sqlAvg frevs = some (frevs.sum / frevs.length) := by
    unfold sqlAvg
    rw [if_neg (by simpa [List.isEmpty_iff] using hne)]
  refine ⟨_, mkForecastInsights_some hfa, rfl, ?_, ?_⟩
  · intro hpos
    rw [forecastGrowth_eq, if_pos hpos]
  · intro hneg
    refine ⟨?_, ?_⟩
    · rw [forecastGrowth_eq, if_neg hneg]
    · show pyRound (forecastGrowth (frevs.sum / frevs.length) (sqlAvg hrevs)) 1 = 0
      rw [forecastGrowth_eq, if_neg hneg, pyRound_zero]

/-- Witness for C1 at the spec's example: forecast [100, 200, 150] with
historical average 120 yields expected growth exactly 25. -/
theorem forecast_growth_formula_witness :
    (([100, 200, 150] : List ℚ) ≠ []) ∧
    ∃ ins, mkForecastInsights ⟨[100, 200, 150], [120], []⟩ = some ins ∧
      ins.expected_growth_percentage = 25 := by
  refine ⟨by simp, ?_⟩
  obtain ⟨ins, hins, hfield, hpos, _⟩ :=
    forecast_growth_formula [100, 200, 150] [120] [] (by simp)
  refine ⟨ins, hins, ?_⟩
  rw [hfield]
  set_option maxRecDepth 10000 in with_unfolding_all decide

/-- C4 counterexample: the exception-path fallback of the daily sales
endpoint truncates to `min(days, 30)` rows, so for days = 31 it returns
30 rows, not the 31 the claim requires of every failure cause. -/
theorem exception_fallback_truncated_counterexample :
    (get_daily_sales 31 0 (.dbError "connection refused")).length = 30 ∧
    (30 : ℕ) ≠ 31 := by
  constructor
  · show (dailySalesSample (min 31 30) 0).length = 30
    unfold dailySalesSample
    rw [List.length_map, List.length_range]
    decide
  · decide

/-- C4 amended: for days in 1..365 and a fixed today, the no-table and
empty-result fallbacks return exactly `days` rows with row `i` carrying
date `today - i`, revenue `1000 + 10 i`, orders `50 + i` and average
`20 + 0.5 i`; the exception-path fallback returns the same progression
but truncated to `min(days, 30)` rows. -/
theorem daily_fallback_rows (days : ℕ) (today : ℤ) (h1 : 1 ≤ days) (h2 : days ≤ 365) :
    (get_daily_sales days today .noTable).length = days ∧
    get_daily_sales days today (.table []) = get_daily_sales days today .noTable ∧
    (∀ i, i < days →
      (get_daily_sales days today .noTable)[i]? =
        some { date := dateStr (today - i), revenue := 1000 + (i : ℚ) * 10,
               orders := 50 + (i : ℤ), avg_order_value := 20 + (i : ℚ) * (1 / 2) }) ∧
    (∀ msg, get_daily_sales days today (.dbError msg) =
      dailySalesSample (min days 30) today) := by
  refine ⟨?_, rfl, ?_, fun _ => rfl⟩
  · show (dailySalesSample days today).length = days
    unfold dailySalesSample
    rw [List.length_map, List.length_range]
  · intro i hi
    show (dailySalesSample days today)[i]? = _
    have ha : pyRound (1000 + (i : ℚ) * 10) 2 = 1000 + (i : ℚ) * 10 :=
      pyRound_eq_self (100000 + 1000 * (i : ℤ)) (by push_cast; ring)
    have hb : pyRound (20 + (i : ℚ) * (1 / 2)) 2 = 20 + (i : ℚ) * (1 / 2) :=
      pyRound_eq_self (2000 + 50 * (i : ℤ)) (by push_cast; ring)
    unfold dailySalesSample
    rw [List.getElem?_map, List.getElem?_range hi, Option.map_some', ha, hb]

/-- Witness for C4 at days = 3, today = day 0: three rows, with row 1
dated 1969-12-31 and revenue 1010. -/
theorem daily_fallback_rows_witness :
    ((1 ≤ 3 ∧ 3 ≤ 365) ∧ (get_daily_sales 3 0 .noTable).length = 3) ∧
    (get_daily_sales 3 0 .noTable)[1]? =
      some { date := "1969-12-31", revenue := 1010, orders := 51,
             avg_order_value := 41 / 2 } := by
  refine ⟨⟨⟨by decide, by decide⟩, ?_⟩, ?_⟩
  · exact (daily_fallback_rows 3 0 (by decide) (by decide)).1
  · have h := (daily_fallback_rows 3 0 (by decide) (by decide)).2.2.1 1 (by decide)
    rw [h]
    set_option maxRecDepth 10000 in with_unfolding_all decide

/-- C6: for every date on which at least one transaction exists, the
daily aggregate row of that date reports `daily_revenue` as the plain sum
of `TotalRevenue` over that date's transactions (negative revenues, i.e.
returns, included, since nothing is filtered) and `transaction_count` as
the number of distinct invoice numbers on that date. -/
theorem daily_aggregate_row (txns : List Txn) (d : ℤ)
    (h : ∃ t ∈ txns, t.invoiceDate = d) :
    (recreate_daily_sales txns).find? (fun r => r.sale_date == d) =
      some { sale_date := d,
             daily_revenue := ((txnsOnDate txns d).map (·.totalRevenue)).sum,
             transaction_count := (((txnsOnDate txns d).map (·.invoiceNo)).dedup).length,
             avg_order_value :=
               ((txnsOnDate txns d).map (·.totalRevenue)).sum /
                 (txnsOnDate txns d).length } := by
  have hd : d ∈ (txns.map (·.invoiceDate)).dedup := by
    rw [List.mem_dedup]
    obtain ⟨t, ht, hdt⟩ := h
    exact List.mem_map.mpr ⟨t, ht, hdt⟩
  unfold recreate_daily_sales
  rw [List.find?_map]
  have hkey : ((txns.map (·.invoiceDate)).dedup).find?
      ((fun r => r.sale_date == d) ∘ dailyRowFor txns) = some d := by
    have hproj : ((fun r => r.sale_date == d) ∘ dailyRowFor txns) =
        fun k : ℤ => k == d := rfl
    rw [hproj]
    exact find?_beq_self hd
  rw [hkey]
  rfl

/-- Witness for C6 at the spec's example: one day with invoices of
revenue 100 and -20 reports daily_revenue 80 and transaction_count 2. -/
theorem daily_aggregate_row_witness :
    (∃ t ∈ txnsReturnDay, t.invoiceDate = 0) ∧
    (recreate_daily_sales txnsReturnDay).find? (fun r => r.sale_date == 0) =
      some { sale_date := 0, daily_revenue := 80, transaction_count := 2,
             avg_order_value := 40 } := by
  refine ⟨by decide, ?_⟩
  have h := daily_aggregate_row txnsReturnDay 0 (by decide)
  rw [h]
  set_option maxRecDepth 10000 in with_unfolding_all decide

/-- C7: when the grand total revenue is nonzero, every country group's
share is `group_revenue / grand_total * 100`, the shares over all
country groups (the NULL and empty-string groups included) sum to
exactly 100 in this exact arithmetic, every transaction's country value
(including NULL and "") yields a summary row rather than being dropped,
and the serving layer labels NULL/empty countries "Unknown". -/
theorem country_share_invariants (txns : List Txn)
    (hg : (txns.map (·.totalRevenue)).sum ≠ 0) :
    ((recreate_country_summary txns).map (·.revenue_share_percentage)).sum = 100 ∧
    (∀ r ∈ recreate_country_summary txns,
      r.revenue_share_percentage =
        r.total_revenue / (txns.map (·.totalRevenue)).sum * 100) ∧
    (∀ t ∈ txns, ∃ r ∈ recreate_country_summary txns, r.country = t.country) ∧
    (∀ r ∈ recreate_country_summary txns,
      (r.country = none ∨ r.country = some "") →
        (serveCountryRow r).country = "Unknown") := by
  have hkeys : ((txns.map (·.country)).dedup).Nodup := List.nodup_dedup _
  have hcov : ∀ x ∈ txns, x.country ∈ (txns.map (·.country)).dedup := by
    intro x hx
    rw [List.mem_dedup]
    exact List.mem_map.mpr ⟨x, hx, rfl⟩
  refine ⟨?_, ?_, ?_, ?_⟩
  · have hsum := sum_filter_key (fun t : Txn => t.country) (fun t : Txn => t.totalRevenue)
      txns ((txns.map (·.country)).dedup) hkeys hcov
    unfold recreate_country_summary
    rw [List.map_map]
    have hfun : ((fun r : CountrySummaryRow => r.revenue_share_percentage) ∘
        countryRowFor txns ((txns.map (·.totalRevenue)).sum)) =
        fun c => ((txns.filter fun x => x.country == c).map fun t => t.totalRevenue).sum *
          (100 / (txns.map (·.totalRevenue)).sum) := by
      funext c
      show ((txnsOfCountry txns c).map (·.totalRevenue)).sum * 100 /
          (txns.map (·.totalRevenue)).sum = _
      rw [mul_div_assoc]
      rfl
    rw [hfun, List.sum_map_mul_right, hsum]
    field_simp
  · intro r hr
    obtain ⟨c, hc, hceq⟩ := List.mem_map.mp hr
    rw [← hceq]
    show ((txnsOfCountry txns c).map (·.totalRevenue)).sum * 100 /
        (txns.map (·.totalRevenue)).sum =
      ((txnsOfCountry txns c).map (·.totalRevenue)).sum /
        (txns.map (·.totalRevenue)).sum * 100
    ring
  · intro t ht
    exact ⟨countryRowFor txns ((txns.map (·.totalRevenue)).sum) t.country,
      List.mem_map.mpr ⟨t.country, hcov t ht, rfl⟩, rfl⟩
  · intro r _ hor
    show (match r.country with
          | none => "Unknown"
          | some s => if s = "" then "Unknown" else s) = "Unknown"
    rcases hor with h | h <;> rw [h] <;> simp

/-- Witness for C7 at a three-transaction set with a named country, a
NULL country and an empty-string country: grand total 100, shares sum to
100. -/
theorem country_share_invariants_witness :
    ((txnsCountries.map (·.totalRevenue)).sum ≠ 0) ∧
    ((recreate_country_summary txnsCountries).map (·.revenue_share_percentage)).sum = 100 := by
  have hg : (txnsCountries.map (·.totalRevenue)).sum ≠ 0 := by
    set_option maxRecDepth 10000 in with_unfolding_all decide
  exact ⟨hg, (country_share_invariants txnsCountries hg).1⟩

/-- C5: for a non-empty forecast series stored in ascending date order
(the spec's standing assumption on forecast series), the summary's
peak_day and low_day are dates of rows attaining the maximum and minimum
predicted_revenue, and on ties the earliest date among the tying rows is
returned, because the `LIMIT 1` scan meets the earliest tying row
first. -/
theorem forecast_peak_low_days (rows : List ForecastRow) (hne : rows ≠ [])
    (hsorted : rows.Pairwise fun a b => a.forecast_date ≤ b.forecast_date) :
    ∃ s, mkForecastSummary rows = some s ∧
      (∃ r ∈ rows, s.peak_day = dateStr r.forecast_date ∧
        (∀ q ∈ rows, q.predicted_revenue ≤ r.predicted_revenue) ∧
        (∀ q ∈ rows, q.predicted_revenue = r.predicted_revenue →
          r.forecast_date ≤ q.forecast_date)) ∧
      (∃ r ∈ rows, s.low_day = dateStr r.forecast_date ∧
        (∀ q ∈ rows, r.predicted_revenue ≤ q.predicted_revenue) ∧
        (∀ q ∈ rows, q.predicted_revenue = r.predicted_revenue →
          r.forecast_date ≤ q.forecast_date)) := by
  have hrne : rows.map (·.predicted_revenue) ≠ [] := by
    intro h
    exact hne (List.map_eq_nil.mp h)
  obtain ⟨mx, hmx⟩ := sqlMax_of_ne_nil hrne
  obtain ⟨mn, hmn⟩ := sqlMin_of_ne_nil hrne
  obtain ⟨rp, hrp, hrpval⟩ := List.mem_map.mp (sqlMax_mem hmx)
  obtain ⟨rl, hrl, hrlval⟩ := List.mem_map.mp (sqlMin_mem hmn)
  have hrpfil : rp ∈ rows.filter fun r =>
      sqlMax (rows.map (·.predicted_revenue)) == some r.predicted_revenue := by
    rw [List.mem_filter]
    refine ⟨hrp, ?_⟩
    rw [hmx, hrpval]
    simp
  have hrlfil : rl ∈ rows.filter fun r =>
      sqlMin (rows.map (·.predicted_revenue)) == some r.predicted_revenue := by
    rw [List.mem_filter]
    refine ⟨hrl, ?_⟩
    rw [hmn, hrlval]
    simp
  obtain ⟨p0, prest, hpfil⟩ := List.exists_cons_of_ne_nil (List.ne_nil_of_mem hrpfil)
  obtain ⟨l0, lrest, hlfil⟩ := List.exists_cons_of_ne_nil (List.ne_nil_of_mem hrlfil)
  have hp0 := List.mem_filter.mp (hpfil ▸ List.mem_cons_self p0 prest)
  have hl0 := List.mem_filter.mp (hlfil ▸ List.mem_cons_self l0 lrest)
  have hp0val : p0.predicted_revenue = mx := by
    have h2 := hp0.2
    rw [hmx] at h2
    simp only [beq_iff_eq, Option.some.injEq] at h2
    exact h2.symm
  have hl0val : l0.predicted_revenue = mn := by
    have h2 := hl0.2
    rw [hmn] at h2
    simp only [beq_iff_eq, Option.some.injEq] at h2
    exact h2.symm
  have hppw := hsorted.sublist (List.filter_sublist rows
    (p := fun r => sqlMax (rows.map (·.predicted_revenue)) == some r.predicted_revenue))
  have hlpw := hsorted.sublist (List.filter_sublist rows
    (p := fun r => sqlMin (rows.map (·.predicted_revenue)) == some r.predicted_revenue))
  rw [hpfil] at hppw
  rw [hlfil] at hlpw
  have hpfirst : ∀ q ∈ prest, p0.forecast_date ≤ q.forecast_date :=
    (List.pairwise_cons.mp hppw).1
  have hlfirst : ∀ q ∈ lrest, l0.forecast_date ≤ q.forecast_date :=
    (List.pairwise_cons.mp hlpw).1
  have hptie : ∀ q ∈ rows, q.predicted_revenue = p0.predicted_revenue →
      p0.forecast_date ≤ q.forecast_date := by
    intro q hq hqv
    have hqfil : q ∈ rows.filter fun r =>
        sqlMax (rows.map (·.predicted_revenue)) == some r.predicted_revenue := by
      rw [List.mem_filter]
      refine ⟨hq, ?_⟩
      rw [hmx, hqv, hp0val]
      simp
    rw [hpfil] at hqfil
    rcases List.mem_cons.mp hqfil with h | h
    · rw [h]
    · exact hpfirst q h
  have hltie : ∀ q ∈ rows, q.predicted_revenue = l0.predicted_revenue →
      l0.forecast_date ≤ q.forecast_date := by
    intro q hq hqv
    have hqfil : q ∈ rows.filter fun r =>
        sqlMin (rows.map (·.predicted_revenue)) == some r.predicted_revenue := by
      rw [List.mem_filter]
      refine ⟨hq, ?_⟩
      rw [hmn, hqv, hl0val]
      simp
    rw [hlfil] at hqfil
    rcases List.mem_cons.mp hqfil with h | h
    · rw [h]
    · exact hlfirst q h
  have hple : ∀ q ∈ rows, q.predicted_revenue ≤ p0.predicted_revenue := by
    intro q hq
    rw [hp0val]
    exact le_sqlMax hmx _ (List.mem_map.mpr ⟨q, hq, rfl⟩)
  have hlle : ∀ q ∈ rows, l0.predicted_revenue ≤ q.predicted_revenue := by
    intro q hq
    rw [hl0val]
    exact sqlMin_le hmn _ (List.mem_map.mpr ⟨q, hq, rfl⟩)
  have hpd : peakDayOfTable rows = some (dateStr p0.forecast_date) := by
    unfold peakDayOfTable
    rw [hpfil]
    rfl
  have hld : lowDayOfTable rows = some (dateStr l0.forecast_date) := by
    unfold lowDayOfTable
    rw [hlfil]
    rfl
  have hmk : mkForecastSummary rows = some
      { total_forecast := (rows.map (·.predicted_revenue)).sum,
        avg_daily := (rows.map (·.predicted_revenue)).sum / rows.length,
        peak_day := dateStr p0.forecast_date,
        peak_value := mx,
        low_day := dateStr l0.forecast_date,
        low_value := mn,
        days_forecasted := rows.length } := by
    unfold mkForecastSummary
    rw [hmx, hmn, hpd, hld]
  exact ⟨_, hmk, ⟨p0, hp0.1, rfl, hple, hptie⟩, ⟨l0, hl0.1, rfl, hlle, hltie⟩⟩

/-- Witness for C5 at the spec's example series [100, 200, 150] on days
0, 1, 2: the peak day is day 1 and the low day is day 0. -/
theorem forecast_peak_low_days_witness :
    (forecastExample ≠ [] ∧
      forecastExample.Pairwise fun a b => a.forecast_date ≤ b.forecast_date) ∧
    ∃ s, mkForecastSummary forecastExample = some s ∧
      s.peak_day = "1970-01-02" ∧ s.low_day = "1970-01-01" := by
  refine ⟨⟨by simp [forecastExample], by decide⟩, ?_⟩
  obtain ⟨s, hs, _, _⟩ :=
    forecast_peak_low_days forecastExample (by simp [forecastExample]) (by decide)
  have hcomp : mkForecastSummary forecastExample = some
      { total_forecast := 450, avg_daily := 150, peak_day := "1970-01-02",
        peak_value := 200, low_day := "1970-01-01", low_value := 100,
        days_forecasted := 3 } := by
    set_option maxRecDepth 20000 in with_unfolding_all decide
  rw [hs] at hcomp
  have hse := Option.some.inj hcomp
  exact ⟨s, hs, by rw [hse], by rw [hse]⟩

/-- C8 counterexample: the real-data path of the daily sales endpoint
serves the stored `daily_revenue` verbatim; a stored value of 1234.567
is surfaced with three decimals, not rounded to 2 decimal places, so not
every monetary value crossing the serving boundary is rounded. -/
theorem unrounded_output_counterexample :
    (get_daily_sales 30 0
        (.table [{ sale_date := 0, daily_revenue := 1234567 / 1000,
                   transaction_count := 5, avg_order_value := 10 }])).map (·.revenue) =
      [1234567 / 1000] ∧
    pyRound (1234567 / 1000) 2 ≠ 1234567 / 1000 := by
  constructor
  · simp [get_daily_sales, serveDailyRow]
  · set_option maxRecDepth 4000 in with_unfolding_all decide

/-- C8 amended: rounding happens only where the handlers call `round()`
— the sales summary rounds its monetary fields to 2 decimals and the
forecast insights response rounds its growth percentage to 1 decimal and
its monetary fields to 2 — while the daily sales, country sales and
daily forecast serving paths pass the stored values through unchanged. -/
theorem rounding_boundary (period : String) (r : SummaryRow) (d : InsightsData)
    (favg : ℚ) (hfa : sqlAvg d.forecast_revenues = some favg) :
    (get_sales_summary period (.ok r)).total_revenue =
      pyRound (r.total_revenue.getD 0) 2 ∧
    (get_sales_summary period (.ok r)).avg_order_value =
      pyRound (r.avg_order_value.getD 0) 2 ∧
    (∃ ins, mkForecastInsights d = some ins ∧
      ins.expected_growth_percentage =
        pyRound (forecastGrowth favg (sqlAvg d.historical_daily)) 1 ∧
      ins.average_daily_forecast = pyRound favg 2 ∧
      ins.total_forecast_next_90days = pyRound d.forecast_revenues.sum 2) ∧
    (∀ row : DailySalesRow, (serveDailyRow row).revenue = row.daily_revenue) ∧
    (∀ row : CountrySummaryRow,
      (serveCountryRow row).revenue_share = row.revenue_share_percentage) ∧
    (∀ row : ForecastRow,
      (serveForecastRow row).predicted_revenue = row.predicted_revenue) := by
  refine ⟨rfl, rfl, ?_, fun _ => rfl, fun _ => rfl, fun _ => rfl⟩
  exact ⟨_, mkForecastInsights_some hfa, rfl, rfl, rfl⟩

/-- Witness for C8 at concrete rows: the summary rounds its stored 1/3
to 2 decimals. -/
theorem rounding_boundary_witness :
    sqlAvg ([100] : List ℚ) = some 100 ∧
    (get_sales_summary "Last 30 days"
        (.ok { total_revenue := some (1 / 3), total_orders := some 2,
               unique_customers := some 3, avg_order_value := some 0 })).total_revenue =
      pyRound (1 / 3) 2 := by
  have hfa : sqlAvg ([100] : List ℚ) = some 100 := by
    set_option maxRecDepth 10000 in with_unfolding_all decide
  exact ⟨hfa,
    (rounding_boundary "Last 30 days"
      { total_revenue := some (1 / 3), total_orders := some 2,
        unique_customers := some 3, avg_order_value := some 0 }
      { forecast_revenues := [100], historical_daily := [50], monthly := [] }
      100 hfa).1⟩

end Analytics
